import Mathlib

/-!
Shallow embedding of the real-time audio-conversation client:

* the WebSocket session hook (binary-framing variant of `useWebSocket`):
  `connect`, `disconnect`, `sendAudioData` and the installed `onopen`,
  `onmessage`, `onerror`, `onclose` handlers;
* the capture hook's `stopRecording`;
* the dashboard orchestration: the `onStatusUpdate` / `onRecommendations`
  callbacks and `handleStopSession`.

Modelling conventions:

* Each `new WebSocket(url)` allocates a fresh connection id; `conns` maps ids
  to the object's `readyState` (plus a bookkeeping flag `openedOnce` recording
  whether its open event has fired).  `wsRef` is the hook's `wsRef.current`.
* The transport is the append-only log `sent` of `(connection id, wire
  message)` pairs; a handshake text frame or a binary audio frame reaches the
  transport exactly when it is appended to `sent`.
* `setTimeout` returns a fresh timer id; `pendingTimers` is the set of timers
  the runtime still has scheduled (with their delays), `reconnectTimeoutRef`
  is the hook's `reconnectTimeoutRef.current`.  `clearTimeout` removes the id
  from `pendingTimers`; a fired timer is removed when it fires.
* `JSON.parse` is modelled as an oracle: an inbound text payload carries its
  parse outcome (`none` = the payload is not valid JSON and parsing throws;
  `some shape` = the parsed object, abstracted to the fields the handler
  reads).  The `try`/`catch` of the message handler is modelled with
  `Except`: the body throws, the installed handler catches and logs.
* `console.log` / `console.warn` / `console.error` increment the `logs`
  counter.
* `Date.now()` is modelled by the monotone counter `nextMsgTs`.
* Transport events are delivered by the environment per socket object: an
  open event may fire for any socket still CONNECTING — each socket carries
  its own `onopen` handler, which reads `wsRef.current` at fire time and
  sends the handshake on whatever socket the hook then tracks (per WebSocket
  `send` semantics this throws, uncaught, if that socket is still
  CONNECTING, and silently discards the frame if it is closing or closed);
  close/error events fire for any connection object by id (those handlers do
  not read `wsRef`); plus message delivery and timer firings.
-/

namespace AudioStream

/-- WebSocket `readyState` constants. -/
inductive ReadyState
  | CONNECTING
  | OPEN
  | CLOSING
  | CLOSED
  deriving DecidableEq

/-- One WebSocket object created by `new WebSocket(url)`.  `openedOnce`
records whether this object's open event has fired. -/
structure ConnInfo where
  state : ReadyState
  openedOnce : Bool
  deriving DecidableEq

/-- The dashboard's `ConversationStatus` union. -/
inductive ConversationStatus
  | idle
  | listening
  | speaking
  | paused
  deriving DecidableEq

/-- Author tag of a conversation log entry (`ConversationMessage.type`). -/
inductive MsgType
  | user
  | agent
  | system
  deriving DecidableEq

/-- A `ConversationMessage` log entry of the dashboard. -/
structure ConvMessage where
  id : String
  type : MsgType
  content : String
  timestamp : Nat
  deriving DecidableEq

/-- A message handed to the transport on some connection: the initial
handshake text frame `JSON.stringify({prompt, duration})`, or one raw binary
audio frame (`ws.send(audioData)`), identified by an opaque frame id. -/
inductive WireMsg
  | handshake (prompt : String) (duration : Nat)
  | binary (frame : Nat)
  deriving DecidableEq

/-- Parse outcome of an inbound JSON text payload, abstracted to the fields
the message handler reads: an object carrying the `is_there_a_pause` key
(with its boolean and the optional `transcription` string), or any other
successfully parsed value (the handler logs "Unknown message format"). -/
inductive JsonShape
  | withPause (is_there_a_pause : Bool) (transcription : Option String)
  | other
  deriving DecidableEq

/-- An inbound transport payload: a binary frame (only its byte length is
read), or a text payload together with its `JSON.parse` outcome (`none` means
parsing throws). -/
inductive InMsg
  | binary (byteLength : Nat)
  | text (parsed : Option JsonShape)
  deriving DecidableEq

/-- The synchronously visible state of the capture hook (`useAudioCapture`):
its `isRecording` / `audioLevel` state and whether each ref currently holds
an object. -/
structure CaptureState where
  isRecording : Bool
  audioLevel : Nat
  captureError : Option String
  mediaRecorder : Bool
  audioContext : Bool
  analyser : Bool
  stream : Bool
  animationFrame : Bool
  deriving DecidableEq

/-- Combined state of the WebSocket hook, the capture hook, the dashboard and
the modelled runtime (connection objects, transport log, pending timers). -/
@[ext]
structure SysState where
  conns : Nat → Option ConnInfo
  nextConnId : Nat
  wsRef : Option Nat
  isConnected : Bool
  lastError : Option String
  reconnectTimeoutRef : Option Nat
  pendingTimers : List (Nat × Nat)
  nextTimerId : Nat
  reconnectAttempts : Nat
  initialMessageSent : Bool
  sent : List (Nat × WireMsg)
  conversationStatus : ConversationStatus
  recommendations : List String
  conversationMessages : List ConvMessage
  nextMsgTs : Nat
  logs : Nat
  capture : CaptureState

/-- `maxReconnectAttempts = 5`. -/
def maxReconnectAttempts : Nat := 5

/-- Default `prompt` prop of the hook. -/
def defaultPrompt : String := "Default conversation analysis prompt"

/-- Default `duration` prop of the hook. -/
def defaultDuration : Nat := 30

/-- The handshake wire frame `{prompt, duration}` sent with the hook's
default props (the dashboard passes neither prop, so the defaults apply). -/
def handshakeWire : WireMsg := WireMsg.handshake defaultPrompt defaultDuration

/-- The string stored by the `onerror` handler. -/
def wsErrorText : String := "WebSocket connection error"

/-- Content of the system message appended by `handleStopSession`. -/
def sessionEndedText : String := "Session ended"

/-- Point update of the connection map. -/
def upd (conns : Nat → Option ConnInfo) (cid : Nat) (c : ConnInfo) :
    Nat → Option ConnInfo :=
  fun i => if i = cid then some c else conns i

/-- Initial state: no connection objects, empty transport log, no timers,
dashboard in its initial render state. -/
def initState : SysState where
  conns := fun _ => none
  nextConnId := 0
  wsRef := none
  isConnected := false
  lastError := none
  reconnectTimeoutRef := none
  pendingTimers := []
  nextTimerId := 0
  reconnectAttempts := 0
  initialMessageSent := false
  sent := []
  conversationStatus := ConversationStatus.idle
  recommendations := []
  conversationMessages := []
  nextMsgTs := 0
  logs := 0
  capture :=
    { isRecording := false, audioLevel := 0, captureError := none,
      mediaRecorder := false, audioContext := false, analyser := false,
      stream := false, animationFrame := false }

/-- Dashboard callback `onStatusUpdate`: `setConversationStatus(status)`. -/
def onStatusUpdate (st : ConversationStatus) (s : SysState) : SysState :=
  { s with conversationStatus := st }

/-- Message id `tag + "-" + Date.now()` (`Date.now()` modelled by a
counter). -/
def mkMsgId (tag : String) (ts : Nat) : String :=
  tag ++ "-" ++ toString ts

/-- Agent message id `"agent-" + Date.now() + "-" + index`. -/
def mkAgentId (ts i : Nat) : String :=
  "agent-" ++ toString ts ++ "-" ++ toString i

/-- `recs.map((rec, index) => ...)`: index-aware map building the agent
messages of one `onRecommendations` batch. -/
def mkAgentMsgs (ts : Nat) : Nat → List String → List ConvMessage
  | _, [] => []
  | i, r :: rest =>
      { id := mkAgentId ts i, type := MsgType.agent, content := r,
        timestamp := ts } :: mkAgentMsgs ts (i + 1) rest

/-- Dashboard callback `onRecommendations`: stores the list and, when it is
non-empty, appends one agent message per recommendation to the conversation
log. -/
def onRecommendations (recs : List String) (s : SysState) : SysState :=
  let s1 := { s with recommendations := recs }
  if recs.length > 0 then
    { s1 with
      conversationMessages :=
        s1.conversationMessages ++ mkAgentMsgs s1.nextMsgTs 0 recs,
      nextMsgTs := s1.nextMsgTs + 1 }
  else s1

/-- `wsRef.current = new WebSocket(url)`: allocates a fresh connection object
in the `CONNECTING` state and points `wsRef` at it (the previous object, if
any, is left untouched). -/
def createWs (s : SysState) : SysState :=
  { s with
    conns := upd s.conns s.nextConnId
      { state := ReadyState.CONNECTING, openedOnce := false },
    wsRef := some s.nextConnId,
    nextConnId := s.nextConnId + 1 }

/-- `connect()`: clears the error, then — unless the current connection's
`readyState` is `OPEN` — creates a new WebSocket object. -/
def connect (s : SysState) : SysState :=
  let s1 := { s with lastError := none }
  match s1.wsRef with
  | some cid =>
    match s1.conns cid with
    | some c => if c.state = ReadyState.OPEN then s1 else createWs s1
    | none => createWs s1
  | none => createWs s1

/-- The installed `onopen` handler (the same code is installed on every
socket the hook creates): marks connected, resets the attempt counter and
`initialMessageSent`, then — `wsRef.current` being non-null — sends the
handshake `{prompt, duration}` on the socket the hook currently tracks,
which need not be the socket whose open event fired.  Per the WebSocket
`send` semantics: if that tracked socket is still `CONNECTING` the send
throws an InvalidStateError which, uncaught, aborts the rest of the handler;
if it is `OPEN` the frame is transmitted; if it is `CLOSING` or `CLOSED` the
frame is silently discarded but the handler continues, marking
`initialMessageSent` and reporting status `listening`. -/
def onopenHandler (s : SysState) : SysState :=
  let s1 := { s with
    logs := s.logs + 1
    isConnected := true
    reconnectAttempts := 0
    initialMessageSent := false }
  match s1.wsRef with
  | some w =>
    match s1.conns w with
    | some cw =>
      match cw.state with
      | ReadyState.CONNECTING => s1
      | ReadyState.OPEN =>
          let s2 := { s1 with
            sent := s1.sent ++ [(w, handshakeWire)]
            initialMessageSent := true }
          onStatusUpdate ConversationStatus.listening s2
      | ReadyState.CLOSING =>
          onStatusUpdate ConversationStatus.listening
            { s1 with initialMessageSent := true }
      | ReadyState.CLOSED =>
          onStatusUpdate ConversationStatus.listening
            { s1 with initialMessageSent := true }
    | none => s1
  | none => s1

/-- Delivery of the transport open event for socket `cid` (fires once, for a
socket still `CONNECTING` — including a socket orphaned by a re-entrant
`connect()`): its `readyState` becomes `OPEN` (recording that it opened
once), then its `onopen` handler runs. -/
def stepOpen (cid : Nat) (s : SysState) : SysState :=
  match s.conns cid with
  | some c =>
    if c.state = ReadyState.CONNECTING then
      let conns2 := upd s.conns cid
        { state := ReadyState.OPEN, openedOnce := true }
      onopenHandler { s with conns := conns2 }
    else s
  | none => s

/-- JavaScript `String.prototype.trim()`: strip whitespace from both ends.
Defined structurally over the character list so that it evaluates on
concrete strings. -/
def jsTrim (s : String) : String :=
  String.mk
    (((s.data.dropWhile Char.isWhitespace).reverse.dropWhile
        Char.isWhitespace).reverse)

/-- `if (data.transcription && data.transcription.trim()) {
onRecommendations([data.transcription]) }`: forward the transcription when
it is present and non-blank (the common step of both branches of the pause
dispatch; JS truthiness of a string is being non-empty). -/
def forwardTranscription (t : Option String) (s : SysState) : SysState :=
  match t with
  | some tx =>
      if tx ≠ "" ∧ jsTrim tx ≠ "" then onRecommendations [tx] s else s
  | none => s

/-- Body of the `onmessage` handler (inside the `try`): binary payloads are
logged and ignored; text payloads go through `JSON.parse` (which throws on
invalid JSON); an object with the `is_there_a_pause` key updates the status
(`paused` when the flag is set, `listening` otherwise) and then forwards a
present, non-blank transcription; anything else is logged. -/
def onmessageBody (d : InMsg) (s : SysState) : Except String SysState :=
  match d with
  | InMsg.binary _ => Except.ok { s with logs := s.logs + 1 }
  | InMsg.text parsed =>
    match parsed with
    | none => Except.error wsErrorText
    | some (JsonShape.withPause isPause t) =>
      if isPause then
        Except.ok
          (forwardTranscription t (onStatusUpdate ConversationStatus.paused s))
      else
        Except.ok
          (forwardTranscription t
            (onStatusUpdate ConversationStatus.listening s))
    | some JsonShape.other => Except.ok { s with logs := s.logs + 1 }

/-- The installed `onmessage` handler: runs the body and catches any thrown
parse error with a logged diagnostic. -/
def onmessageHandler (d : InMsg) (s : SysState) : SysState :=
  match onmessageBody d s with
  | Except.ok s1 => s1
  | Except.error _ => { s with logs := s.logs + 1 }

/-- Delivery of an error event for connection `cid` (fires on any connection
object that is not closed): the `onerror` handler logs and stores the
error. -/
def stepError (cid : Nat) (s : SysState) : SysState :=
  match s.conns cid with
  | some c =>
      if c.state = ReadyState.CLOSED then s
      else { s with logs := s.logs + 1, lastError := some wsErrorText }
  | none => s

/-- `Math.min(1000 * Math.pow(2, attempts), 30000)`: the reconnect delay in
milliseconds computed for the attempt counter `k`. -/
def backoffDelay (k : Nat) : Nat :=
  min (1000 * 2 ^ k) 30000

/-- The installed `onclose` handler: logs, marks disconnected, reports status
`idle`; then, unless the close was the manual code 1000 or the attempt
counter has reached the maximum, schedules a retry timer after
`backoffDelay attempts` ms.  The new timer id overwrites
`reconnectTimeoutRef` without any `clearTimeout` of a previously stored
timer. -/
def oncloseHandler (code : Nat) (s : SysState) : SysState :=
  let s1 := onStatusUpdate ConversationStatus.idle
    { s with logs := s.logs + 1, isConnected := false }
  if code ≠ 1000 ∧ s1.reconnectAttempts < maxReconnectAttempts then
    { s1 with
      logs := s1.logs + 1,
      pendingTimers := s1.pendingTimers ++
        [(s1.nextTimerId, backoffDelay s1.reconnectAttempts)],
      reconnectTimeoutRef := some s1.nextTimerId,
      nextTimerId := s1.nextTimerId + 1 }
  else s1

/-- Delivery of the close event for connection object `cid` (fires once per
object): its `readyState` becomes `CLOSED`, then the `onclose` handler
runs. -/
def stepClose (cid code : Nat) (s : SysState) : SysState :=
  match s.conns cid with
  | some c =>
      if c.state = ReadyState.CLOSED then s
      else
        let conns2 := upd s.conns cid { c with state := ReadyState.CLOSED }
        oncloseHandler code { s with conns := conns2 }
  | none => s

/-- A scheduled reconnect timer fires: the runtime removes it from the
pending set and runs its callback, which increments the attempt counter and
calls `connect()`. -/
def stepTimerFire (t : Nat) (s : SysState) : SysState :=
  if (s.pendingTimers.map Prod.fst).contains t then
    connect
      { s with
        pendingTimers := s.pendingTimers.filter (fun p => p.1 ≠ t),
        reconnectAttempts := s.reconnectAttempts + 1 }
  else s

/-- `sendAudioData(audioData)`: transmits the frame as a raw binary message
when the tracked connection is `OPEN` and the initial message has been sent;
otherwise it is a no-op with a logged warning (both warning branches of the
source only log). -/
def sendAudioData (f : Nat) (s : SysState) : SysState :=
  match s.wsRef with
  | some cid =>
    match s.conns cid with
    | some c =>
        if c.state = ReadyState.OPEN ∧ s.initialMessageSent then
          { s with sent := s.sent ++ [(cid, WireMsg.binary f)] }
        else { s with logs := s.logs + 1 }
    | none => { s with logs := s.logs + 1 }
  | none => { s with logs := s.logs + 1 }

/-- `disconnect()`: clears the stored reconnect timer (if any), closes the
tracked connection with code 1000 (its `readyState` moves to `CLOSING`
unless it is already closing or closed) and drops the reference to it, marks
disconnected, clears the error and resets the attempt counter. -/
def disconnect (s : SysState) : SysState :=
  let s1 :=
    match s.reconnectTimeoutRef with
    | some t =>
        { s with
          pendingTimers := s.pendingTimers.filter (fun p => p.1 ≠ t)
          reconnectTimeoutRef := none }
    | none => s
  let s2 :=
    match s1.wsRef with
    | some cid =>
        let s15 :=
          match s1.conns cid with
          | some c =>
              if c.state = ReadyState.CLOSING ∨ c.state = ReadyState.CLOSED
              then s1
              else
                let conns2 := upd s1.conns cid
                  { c with state := ReadyState.CLOSING }
                { s1 with conns := conns2 }
          | none => s1
        { s15 with wsRef := none }
    | none => s1
  { s2 with isConnected := false, lastError := none, reconnectAttempts := 0 }

/-- `stopRecording()` of the capture hook.  The source's null-guards only
protect calls on the external objects (`MediaRecorder.stop()`,
`MediaStreamTrack.stop()`, `AudioContext.close()`, `cancelAnimationFrame`),
whose modelled state effect is nil; the synchronous state effect is clearing
every ref and resetting `isRecording` and `audioLevel`. -/
def stopRecording (s : SysState) : SysState :=
  { s with capture :=
      { isRecording := false, audioLevel := 0,
        captureError := s.capture.captureError,
        mediaRecorder := false, audioContext := false, analyser := false,
        stream := false, animationFrame := false } }

/-- System message appended by `handleStopSession`. -/
def sessionEndedMsg (ts : Nat) : ConvMessage :=
  { id := mkMsgId "system" ts, type := MsgType.system,
    content := sessionEndedText, timestamp := ts }

/-- Dashboard `handleStopSession`: stop capture, disconnect, force status
`idle`, clear recommendations, append a system "Session ended" message. -/
def handleStopSession (s : SysState) : SysState :=
  let s1 := stopRecording s
  let s2 := disconnect s1
  let s3 := { s2 with
    conversationStatus := ConversationStatus.idle
    recommendations := [] }
  { s3 with
    conversationMessages :=
      s3.conversationMessages ++ [sessionEndedMsg s3.nextMsgTs],
    nextMsgTs := s3.nextMsgTs + 1 }

/-- Environment events driving the session: calls into the hook and
deliveries by the transport/timer runtime. -/
inductive Event
  | connect
  | wsOpen (cid : Nat)
  | wsMessage (d : InMsg)
  | wsError (cid : Nat)
  | wsClose (cid code : Nat)
  | timerFire (t : Nat)
  | sendAudio (f : Nat)
  | disconnect

/-- One event step. -/
def step (e : Event) (s : SysState) : SysState :=
  match e with
  | Event.connect => connect s
  | Event.wsOpen cid => stepOpen cid s
  | Event.wsMessage d => onmessageHandler d s
  | Event.wsError cid => stepError cid s
  | Event.wsClose cid code => stepClose cid code s
  | Event.timerFire t => stepTimerFire t s
  | Event.sendAudio f => sendAudioData f s
  | Event.disconnect => disconnect s

/-- Run an event trace from the initial state. -/
def run (tr : List Event) : SysState :=
  tr.foldl (fun s e => step e s) initState

/-- The sub-log of transport messages sent on connection `cid`, in order. -/
def sentOn (l : List (Nat × WireMsg)) (cid : Nat) : List WireMsg :=
  l.filterMap fun p => if p.1 = cid then some p.2 else none

/-- Whether a trace event is the delivery of a socket open event. -/
def isOpenEvent : Event → Bool
  | Event.wsOpen _ => true
  | _ => false

/-- Number of socket open events in a trace. -/
def countOpens (tr : List Event) : Nat :=
  tr.countP isOpenEvent

/-- Number of handshake messages in the whole transport log. -/
def countHandshakes (l : List (Nat × WireMsg)) : Nat :=
  l.countP (fun p => p.2 == handshakeWire)

/-- Inductive invariant over the connection map, the id allocator, the
tracked-socket reference, the `initialMessageSent` flag and the transport
log: ids at or above the allocator are unused; a `CONNECTING` socket has not
opened yet and an `OPEN` socket has; nothing has been sent on an unknown or
never-opened socket; on every socket the first transported message, if any,
is the handshake; and whenever the flag is set while the tracked socket is
`OPEN`, that socket has already received the handshake. -/
structure Inv0 (conns : Nat → Option ConnInfo) (next : Nat)
    (wsRef : Option Nat) (flag : Bool)
    (sent : List (Nat × WireMsg)) : Prop where
  fresh : ∀ cid, next ≤ cid → conns cid = none
  connectingNotOpened : ∀ cid c, conns cid = some c →
    c.state = ReadyState.CONNECTING → c.openedOnce = false
  openOpened : ∀ cid c, conns cid = some c →
    c.state = ReadyState.OPEN → c.openedOnce = true
  noMsgsUnknown : ∀ cid, conns cid = none → sentOn sent cid = []
  notOpenedNoMsgs : ∀ cid c, conns cid = some c → c.openedOnce = false →
    sentOn sent cid = []
  headHandshake : ∀ cid, sentOn sent cid = [] ∨
    ∃ rest, sentOn sent cid = handshakeWire :: rest
  flagTracked : flag = true → ∀ w cw, wsRef = some w → conns w = some cw →
    cw.state = ReadyState.OPEN → (w, handshakeWire) ∈ sent

/-- The invariant read off a system state. -/
abbrev Inv (s : SysState) : Prop :=
  Inv0 s.conns s.nextConnId s.wsRef s.initialMessageSent s.sent

theorem sentOn_append (l : List (Nat × WireMsg)) (a : Nat) (m : WireMsg)
    (cid : Nat) :
    sentOn (l ++ [(a, m)]) cid =
      sentOn l cid ++ (if a = cid then [m] else []) := by
  by_cases ha : a = cid
  · subst ha
    simp [sentOn, List.filterMap_append]
  · simp [sentOn, List.filterMap_append, ha]

theorem sentOn_cons (p : Nat × WireMsg) (l : List (Nat × WireMsg))
    (cid : Nat) :
    sentOn (p :: l) cid =
      if p.1 = cid then p.2 :: sentOn l cid else sentOn l cid := by
  by_cases hp : p.1 = cid <;> simp [sentOn, List.filterMap_cons, hp]

theorem mem_sentOn {l : List (Nat × WireMsg)} {cid : Nat} {m : WireMsg} :
    m ∈ sentOn l cid ↔ (cid, m) ∈ l := by
  simp only [sentOn, List.mem_filterMap]
  constructor
  · rintro ⟨⟨a, b⟩, hmem, hif⟩
    by_cases ha : a = cid
    · subst ha
      rw [if_pos rfl] at hif
      cases hif
      exact hmem
    · rw [if_neg ha] at hif
      exact Option.noConfusion hif
  · intro h
    exact ⟨(cid, m), h, by simp⟩

theorem cid_lt_of_some {conns : Nat → Option ConnInfo} {next : Nat}
    {wsRef : Option Nat} {flag : Bool} {sent : List (Nat × WireMsg)}
    {cid : Nat} {c : ConnInfo} (h : Inv0 conns next wsRef flag sent)
    (hc : conns cid = some c) : cid < next := by
  by_contra h2
  push_neg at h2
  rw [h.fresh cid h2] at hc
  exact Option.noConfusion hc

theorem inv0_create {conns : Nat → Option ConnInfo} {next : Nat}
    {wsRef : Option Nat} {flag : Bool} {sent : List (Nat × WireMsg)}
    (h : Inv0 conns next wsRef flag sent) :
    Inv0 (upd conns next { state := ReadyState.CONNECTING, openedOnce := false })
      (next + 1) (some next) flag sent := by
  refine ⟨?_, ?_, ?_, ?_, ?_, h.headHandshake, ?_⟩
  · intro cid hle
    unfold upd
    rw [if_neg (by omega)]
    exact h.fresh cid (by omega)
  · intro cid c hc _
    unfold upd at hc
    by_cases hcid : cid = next
    · rw [if_pos hcid] at hc
      cases hc
      rfl
    · rw [if_neg hcid] at hc
      exact h.connectingNotOpened cid c hc (by assumption)
  · intro cid c hc hst
    unfold upd at hc
    by_cases hcid : cid = next
    · rw [if_pos hcid] at hc
      cases hc
      exact absurd hst (by decide)
    · rw [if_neg hcid] at hc
      exact h.openOpened cid c hc hst
  · intro cid hc
    unfold upd at hc
    by_cases hcid : cid = next
    · rw [if_pos hcid] at hc
      exact Option.noConfusion hc
    · rw [if_neg hcid] at hc
      exact h.noMsgsUnknown cid hc
  · intro cid c hc _
    unfold upd at hc
    by_cases hcid : cid = next
    · rw [if_pos hcid] at hc
      have hnone : conns cid = none := by
        rw [hcid]
        exact h.fresh next (Nat.le_refl next)
      exact h.noMsgsUnknown cid hnone
    · rw [if_neg hcid] at hc
      exact h.notOpenedNoMsgs cid c hc (by assumption)
  · intro _ w cw hw hcw hst
    cases hw
    unfold upd at hcw
    rw [if_pos rfl] at hcw
    cases hcw
    exact absurd hst (by decide)

theorem inv0_stateChange {conns : Nat → Option ConnInfo} {next : Nat}
    {wsRef : Option Nat} {flag : Bool} {sent : List (Nat × WireMsg)}
    {cid : Nat} {c : ConnInfo} {st : ReadyState}
    (h : Inv0 conns next wsRef flag sent) (hc : conns cid = some c)
    (h1 : st ≠ ReadyState.CONNECTING) (h2 : st ≠ ReadyState.OPEN) :
    Inv0 (upd conns cid { c with state := st }) next wsRef flag sent := by
  refine ⟨?_, ?_, ?_, ?_, ?_, h.headHandshake, ?_⟩
  · intro j hle
    unfold upd
    have : j ≠ cid := by
      intro hj
      subst hj
      exact absurd (cid_lt_of_some h hc) (by omega)
    rw [if_neg this]
    exact h.fresh j hle
  · intro j cj hcj hst
    unfold upd at hcj
    by_cases hj : j = cid
    · rw [if_pos hj] at hcj
      cases hcj
      exact absurd hst h1
    · rw [if_neg hj] at hcj
      exact h.connectingNotOpened j cj hcj hst
  · intro j cj hcj hst
    unfold upd at hcj
    by_cases hj : j = cid
    · rw [if_pos hj] at hcj
      cases hcj
      exact absurd hst h2
    · rw [if_neg hj] at hcj
      exact h.openOpened j cj hcj hst
  · intro j hcj
    unfold upd at hcj
    by_cases hj : j = cid
    · rw [if_pos hj] at hcj
      exact Option.noConfusion hcj
    · rw [if_neg hj] at hcj
      exact h.noMsgsUnknown j hcj
  · intro j cj hcj hop
    unfold upd at hcj
    by_cases hj : j = cid
    · rw [if_pos hj] at hcj
      cases hcj
      subst hj
      exact h.notOpenedNoMsgs j c hc hop
    · rw [if_neg hj] at hcj
      exact h.notOpenedNoMsgs j cj hcj hop
  · intro hf w cw hw hcw hst
    unfold upd at hcw
    by_cases hj : w = cid
    · rw [if_pos hj] at hcw
      cases hcw
      exact absurd hst h2
    · rw [if_neg hj] at hcw
      exact h.flagTracked hf w cw hw hcw hst

theorem inv0_wsRefNone {conns : Nat → Option ConnInfo} {next : Nat}
    {wsRef : Option Nat} {flag : Bool} {sent : List (Nat × WireMsg)}
    (h : Inv0 conns next wsRef flag sent) :
    Inv0 conns next none flag sent := by
  refine ⟨h.fresh, h.connectingNotOpened, h.openOpened, h.noMsgsUnknown,
    h.notOpenedNoMsgs, h.headHandshake, ?_⟩
  intro _ w cw hw
  exact absurd hw (by simp)

theorem inv0_sendBinary {conns : Nat → Option ConnInfo} {next : Nat}
    {wsRef : Option Nat} {flag : Bool} {sent : List (Nat × WireMsg)}
    {cid : Nat} {c : ConnInfo} {f : Nat}
    (h : Inv0 conns next wsRef flag sent) (hw : wsRef = some cid)
    (hc : conns cid = some c) (hop : c.state = ReadyState.OPEN)
    (hflag : flag = true) :
    Inv0 conns next wsRef flag (sent ++ [(cid, WireMsg.binary f)]) := by
  have hopened : c.openedOnce = true := h.openOpened cid c hc hop
  have hhs : (cid, handshakeWire) ∈ sent := h.flagTracked hflag cid c hw hc hop
  refine ⟨h.fresh, h.connectingNotOpened, h.openOpened, ?_, ?_, ?_, ?_⟩
  · intro j hcj
    have hj : j ≠ cid := by
      intro hx
      subst hx
      rw [hcj] at hc
      exact Option.noConfusion hc
    rw [sentOn_append, if_neg (fun hx => hj hx.symm), List.append_nil]
    exact h.noMsgsUnknown j hcj
  · intro j cj hcj hno
    have hj : j ≠ cid := by
      intro hx
      subst hx
      rw [hcj] at hc
      cases hc
      rw [hno] at hopened
      exact Bool.noConfusion hopened
    rw [sentOn_append, if_neg (fun hx => hj hx.symm), List.append_nil]
    exact h.notOpenedNoMsgs j cj hcj hno
  · intro j
    by_cases hj : j = cid
    · subst hj
      rcases h.headHandshake j with hempty | ⟨rest, hr⟩
      · exfalso
        have : handshakeWire ∈ sentOn sent j := mem_sentOn.mpr hhs
        rw [hempty] at this
        exact absurd this (List.not_mem_nil _)
      · right
        refine ⟨rest ++ [WireMsg.binary f], ?_⟩
        rw [sentOn_append, if_pos rfl, hr]
        rfl
    · rw [sentOn_append, if_neg (fun hx => hj hx.symm), List.append_nil]
      exact h.headHandshake j
  · intro hf w cw hw2 hcw hst
    exact List.mem_append_left _ (h.flagTracked hf w cw hw2 hcw hst)

theorem inv0_openQuiet {conns : Nat → Option ConnInfo} {next : Nat}
    {wsRef wsRef2 : Option Nat} {flag : Bool} {sent : List (Nat × WireMsg)}
    {cid : Nat} {c : ConnInfo} (h : Inv0 conns next wsRef flag sent)
    (hc : conns cid = some c) :
    Inv0 (upd conns cid { state := ReadyState.OPEN, openedOnce := true })
      next wsRef2 false sent := by
  refine ⟨?_, ?_, ?_, ?_, ?_, h.headHandshake, ?_⟩
  · intro j hle
    unfold upd
    have : j ≠ cid := by
      intro hj
      subst hj
      exact absurd (cid_lt_of_some h hc) (by omega)
    rw [if_neg this]
    exact h.fresh j hle
  · intro j cj hcj hst
    unfold upd at hcj
    by_cases hj : j = cid
    · rw [if_pos hj] at hcj
      cases hcj
      exact absurd hst (by decide)
    · rw [if_neg hj] at hcj
      exact h.connectingNotOpened j cj hcj hst
  · intro j cj hcj _
    unfold upd at hcj
    by_cases hj : j = cid
    · rw [if_pos hj] at hcj
      cases hcj
      rfl
    · rw [if_neg hj] at hcj
      exact h.openOpened j cj hcj (by assumption)
  · intro j hcj
    unfold upd at hcj
    by_cases hj : j = cid
    · rw [if_pos hj] at hcj
      exact Option.noConfusion hcj
    · rw [if_neg hj] at hcj
      exact h.noMsgsUnknown j hcj
  · intro j cj hcj hno
    unfold upd at hcj
    by_cases hj : j = cid
    · rw [if_pos hj] at hcj
      cases hcj
      exact Bool.noConfusion hno
    · rw [if_neg hj] at hcj
      exact h.notOpenedNoMsgs j cj hcj hno
  · intro hf
    exact Bool.noConfusion hf

theorem inv0_openSend {conns : Nat → Option ConnInfo} {next : Nat}
    {wsRef : Option Nat} {flag : Bool} {sent : List (Nat × WireMsg)}
    {cid w : Nat} {c cw : ConnInfo} (h : Inv0 conns next wsRef flag sent)
    (hc : conns cid = some c)
    (hw : wsRef = some w)
    (hcw : upd conns cid { state := ReadyState.OPEN, openedOnce := true } w =
      some cw)
    (hst : cw.state = ReadyState.OPEN) :
    Inv0 (upd conns cid { state := ReadyState.OPEN, openedOnce := true })
      next wsRef true (sent ++ [(w, handshakeWire)]) := by
  have hbase :
      Inv0 (upd conns cid { state := ReadyState.OPEN, openedOnce := true })
        next wsRef false sent :=
    inv0_openQuiet h hc
  have hwopened : cw.openedOnce = true := hbase.openOpened w cw hcw hst
  refine ⟨hbase.fresh, hbase.connectingNotOpened, hbase.openOpened, ?_, ?_, ?_, ?_⟩
  · intro j hcj
    have hj : j ≠ w := by
      intro hx
      subst hx
      rw [hcj] at hcw
      exact Option.noConfusion hcw
    rw [sentOn_append, if_neg (fun hx => hj hx.symm), List.append_nil]
    exact hbase.noMsgsUnknown j hcj
  · intro j cj hcj hno
    have hj : j ≠ w := by
      intro hx
      subst hx
      rw [hcj] at hcw
      cases hcw
      rw [hno] at hwopened
      exact Bool.noConfusion hwopened
    rw [sentOn_append, if_neg (fun hx => hj hx.symm), List.append_nil]
    exact hbase.notOpenedNoMsgs j cj hcj hno
  · intro j
    by_cases hj : j = w
    · subst hj
      rcases hbase.headHandshake j with hempty | ⟨rest, hr⟩
      · right
        refine ⟨[], ?_⟩
        rw [sentOn_append, if_pos rfl, hempty]
        rfl
      · right
        refine ⟨rest ++ [handshakeWire], ?_⟩
        rw [sentOn_append, if_pos rfl, hr]
        rfl
    · rw [sentOn_append, if_neg (fun hx => hj hx.symm), List.append_nil]
      exact hbase.headHandshake j
  · intro _ w2 cw2 hw2 _ _
    rw [hw] at hw2
    cases hw2
    exact List.mem_append_right _ (List.mem_singleton_self _)

theorem inv0_openDiscard {conns : Nat → Option ConnInfo} {next : Nat}
    {wsRef : Option Nat} {flag : Bool} {sent : List (Nat × WireMsg)}
    {cid w : Nat} {c cw : ConnInfo} (h : Inv0 conns next wsRef flag sent)
    (hc : conns cid = some c)
    (hw : wsRef = some w)
    (hcw : upd conns cid { state := ReadyState.OPEN, openedOnce := true } w =
      some cw)
    (hst : cw.state ≠ ReadyState.OPEN) :
    Inv0 (upd conns cid { state := ReadyState.OPEN, openedOnce := true })
      next wsRef true sent := by
  have hbase :
      Inv0 (upd conns cid { state := ReadyState.OPEN, openedOnce := true })
        next wsRef false sent :=
    inv0_openQuiet h hc
  refine ⟨hbase.fresh, hbase.connectingNotOpened, hbase.openOpened,
    hbase.noMsgsUnknown, hbase.notOpenedNoMsgs, hbase.headHandshake, ?_⟩
  intro _ w2 cw2 hw2 hcw2 hst2
  rw [hw] at hw2
  cases hw2
  rw [hcw] at hcw2
  cases hcw2
  exact absurd hst2 hst

theorem Inv0_of_view {s2 : SysState} {conns : Nat → Option ConnInfo}
    {next : Nat} {wsRef : Option Nat} {flag : Bool}
    {sent : List (Nat × WireMsg)} (h1 : s2.conns = conns)
    (h2 : s2.nextConnId = next) (h3 : s2.wsRef = wsRef)
    (h4 : s2.initialMessageSent = flag) (h5 : s2.sent = sent)
    (h : Inv0 conns next wsRef flag sent) : Inv s2 := by
  show Inv0 s2.conns s2.nextConnId s2.wsRef s2.initialMessageSent s2.sent
  rw [h1, h2, h3, h4, h5]
  exact h

theorem oncloseHandler_view (code : Nat) (s : SysState) :
    (oncloseHandler code s).conns = s.conns ∧
    (oncloseHandler code s).nextConnId = s.nextConnId ∧
    (oncloseHandler code s).wsRef = s.wsRef ∧
    (oncloseHandler code s).initialMessageSent = s.initialMessageSent ∧
    (oncloseHandler code s).sent = s.sent := by
  unfold oncloseHandler
  dsimp only [onStatusUpdate]
  split
  · exact ⟨rfl, rfl, rfl, rfl, rfl⟩
  · exact ⟨rfl, rfl, rfl, rfl, rfl⟩

theorem onRecommendations_view (recs : List String) (s : SysState) :
    (onRecommendations recs s).conns = s.conns ∧
    (onRecommendations recs s).nextConnId = s.nextConnId ∧
    (onRecommendations recs s).wsRef = s.wsRef ∧
    (onRecommendations recs s).initialMessageSent = s.initialMessageSent ∧
    (onRecommendations recs s).sent = s.sent := by
  unfold onRecommendations
  dsimp only
  split
  · exact ⟨rfl, rfl, rfl, rfl, rfl⟩
  · exact ⟨rfl, rfl, rfl, rfl, rfl⟩

theorem forwardTranscription_view (t : Option String) (s : SysState) :
    (forwardTranscription t s).conns = s.conns ∧
    (forwardTranscription t s).nextConnId = s.nextConnId ∧
    (forwardTranscription t s).wsRef = s.wsRef ∧
    (forwardTranscription t s).initialMessageSent = s.initialMessageSent ∧
    (forwardTranscription t s).sent = s.sent := by
  unfold forwardTranscription
  cases t with
  | none => exact ⟨rfl, rfl, rfl, rfl, rfl⟩
  | some tx =>
    dsimp only
    by_cases hcond : tx ≠ "" ∧ jsTrim tx ≠ ""
    · rw [if_pos hcond]
      exact onRecommendations_view [tx] s
    · rw [if_neg hcond]
      exact ⟨rfl, rfl, rfl, rfl, rfl⟩

theorem Inv_connect {s : SysState} (h : Inv s) : Inv (connect s) := by
  unfold connect
  dsimp only
  split
  · split
    · split
      · exact h
      · exact inv0_create h
    · exact inv0_create h
  · exact inv0_create h

theorem Inv_stepOpen {s : SysState} {cid : Nat} (h : Inv s) :
    Inv (stepOpen cid s) := by
  unfold stepOpen
  split
  · rename_i c hc
    split
    · rename_i hcs
      unfold onopenHandler
      dsimp only
      split
      · rename_i w hw
        split
        · rename_i cw hcw
          split
          · exact inv0_openQuiet h hc
          · rename_i hcwOpen
            exact inv0_openSend h hc hw hcw hcwOpen
          · rename_i hcwSt
            exact inv0_openDiscard h hc hw hcw (by rw [hcwSt]; decide)
          · rename_i hcwSt
            exact inv0_openDiscard h hc hw hcw (by rw [hcwSt]; decide)
        · exact inv0_openQuiet h hc
      · exact inv0_openQuiet h hc
    · exact h
  · exact h

theorem Inv_sendAudio {s : SysState} {f : Nat} (h : Inv s) :
    Inv (sendAudioData f s) := by
  unfold sendAudioData
  split
  · rename_i cid hw
    split
    · rename_i c hc
      split
      · rename_i hcond
        exact inv0_sendBinary h hw hc hcond.1 hcond.2
      · exact h
    · exact h
  · exact h

theorem Inv_stepClose {s : SysState} {cid code : Nat} (h : Inv s) :
    Inv (stepClose cid code s) := by
  unfold stepClose
  dsimp only
  split
  · rename_i c hc
    split
    · exact h
    · have hview := oncloseHandler_view code { s with conns := upd s.conns cid { c with state := ReadyState.CLOSED } }
      exact Inv0_of_view hview.1 hview.2.1 hview.2.2.1 hview.2.2.2.1
        hview.2.2.2.2 (inv0_stateChange h hc (by decide) (by decide))
  · exact h

theorem Inv_stepError {s : SysState} {cid : Nat} (h : Inv s) :
    Inv (stepError cid s) := by
  unfold stepError
  split
  · split
    · exact h
    · exact h
  · exact h

theorem onmessage_view (d : InMsg) (s : SysState) :
    (onmessageHandler d s).conns = s.conns ∧
    (onmessageHandler d s).nextConnId = s.nextConnId ∧
    (onmessageHandler d s).wsRef = s.wsRef ∧
    (onmessageHandler d s).initialMessageSent = s.initialMessageSent ∧
    (onmessageHandler d s).sent = s.sent := by
  unfold onmessageHandler onmessageBody
  cases d with
  | binary n => exact ⟨rfl, rfl, rfl, rfl, rfl⟩
  | text p =>
    cases p with
    | none => exact ⟨rfl, rfl, rfl, rfl, rfl⟩
    | some sh =>
      cases sh with
      | other => exact ⟨rfl, rfl, rfl, rfl, rfl⟩
      | withPause b t =>
        cases b
        · exact forwardTranscription_view t
            (onStatusUpdate ConversationStatus.listening s)
        · exact forwardTranscription_view t
            (onStatusUpdate ConversationStatus.paused s)

theorem Inv_onmessage {s : SysState} {d : InMsg} (h : Inv s) :
    Inv (onmessageHandler d s) := by
  obtain ⟨h1, h2, h3, h4, h5⟩ := onmessage_view d s
  exact Inv0_of_view h1 h2 h3 h4 h5 h

theorem disconnect_view (s : SysState) :
    (disconnect s).nextConnId = s.nextConnId ∧ (disconnect s).sent = s.sent ∧
    ((disconnect s).conns = s.conns ∨
      ∃ cid c, s.conns cid = some c ∧
        (disconnect s).conns = upd s.conns cid { c with state := ReadyState.CLOSING }) := by
  unfold disconnect
  cases hr : s.reconnectTimeoutRef with
  | none =>
    simp only [hr]
    cases hw : s.wsRef with
    | none =>
      simp only [hw]
      simp
    | some cid =>
      simp only [hw]
      cases hc : s.conns cid with
      | none =>
        simp only [hc]
        simp
      | some c =>
        simp only [hc]
        split
        · simp
        · exact ⟨rfl, rfl, Or.inr ⟨cid, c, hc, rfl⟩⟩
  | some t =>
    simp only [hr]
    cases hw : s.wsRef with
    | none =>
      simp only [hw]
      simp
    | some cid =>
      simp only [hw]
      cases hc : s.conns cid with
      | none =>
        simp only [hc]
        simp
      | some c =>
        simp only [hc]
        split
        · simp
        · exact ⟨rfl, rfl, Or.inr ⟨cid, c, hc, rfl⟩⟩

theorem disconnect_flag (s : SysState) :
    (disconnect s).initialMessageSent = s.initialMessageSent := by
  unfold disconnect
  cases hr : s.reconnectTimeoutRef <;>
    cases hw : s.wsRef <;>
      simp only [hr, hw] <;>
        first
          | rfl
          | assumption
          | (split <;> first | rfl | assumption | (split <;> first | rfl | assumption))

theorem connect_lastError (s : SysState) : (connect s).lastError = none := by
  unfold connect createWs
  dsimp only
  split
  · split
    · split
      · rfl
      · rfl
    · rfl
  · rfl

theorem connect_attempts (s : SysState) :
    (connect s).reconnectAttempts = s.reconnectAttempts := by
  unfold connect createWs
  dsimp only
  split
  · split
    · split
      · rfl
      · rfl
    · rfl
  · rfl

theorem connect_noop {s : SysState} {cid : Nat} {c : ConnInfo}
    (hw : s.wsRef = some cid) (hc : s.conns cid = some c)
    (hop : c.state = ReadyState.OPEN) :
    connect s = { s with lastError := none } := by
  unfold connect
  dsimp only
  split
  · rename_i cid2 hw2
    rw [hw] at hw2
    cases hw2
    split
    · rename_i c2 hc2
      rw [hc] at hc2
      cases hc2
      rw [if_pos hop]
    · rename_i hc2
      rw [hc] at hc2
      exact Option.noConfusion hc2
  · rename_i hw2
    rw [hw] at hw2
    exact Option.noConfusion hw2

theorem connect_inflight {s : SysState} {cid : Nat} {c : ConnInfo}
    (hw : s.wsRef = some cid) (hc : s.conns cid = some c)
    (hcon : c.state = ReadyState.CONNECTING) :
    connect s = createWs { s with lastError := none } := by
  unfold connect
  simp only [hw, hc, hcon]
  rfl

theorem sendAudio_noflag {s : SysState} (f : Nat)
    (hflag : s.initialMessageSent = false) :
    sendAudioData f s = { s with logs := s.logs + 1 } := by
  unfold sendAudioData
  split
  · split
    · split
      · rename_i hcond
        rw [hflag] at hcond
        exact absurd hcond.2 (by simp)
      · rfl
    · rfl
  · rfl

theorem sendAudio_send {s : SysState} {cid : Nat} {c : ConnInfo} (f : Nat)
    (hw : s.wsRef = some cid) (hc : s.conns cid = some c)
    (hop : c.state = ReadyState.OPEN)
    (hflag : s.initialMessageSent = true) :
    sendAudioData f s = { s with sent := s.sent ++ [(cid, WireMsg.binary f)] } := by
  unfold sendAudioData
  split
  · rename_i cid2 hw2
    rw [hw] at hw2
    cases hw2
    split
    · rename_i c2 hc2
      rw [hc] at hc2
      cases hc2
      rw [if_pos ?hcond]
      case hcond => exact And.intro hop hflag
    · rename_i hc2
      rw [hc] at hc2
      exact Option.noConfusion hc2
  · rename_i hw2
    rw [hw] at hw2
    exact Option.noConfusion hw2

theorem stepClose_live {s : SysState} {cid code : Nat} {c : ConnInfo}
    (hc : s.conns cid = some c) (hst : c.state ≠ ReadyState.CLOSED) :
    stepClose cid code s =
      oncloseHandler code
        { s with conns := upd s.conns cid { c with state := ReadyState.CLOSED } } := by
  unfold stepClose
  split
  · rename_i c2 hc2
    rw [hc] at hc2
    cases hc2
    rw [if_neg hst]
  · rename_i hc2
    rw [hc] at hc2
    exact Option.noConfusion hc2

theorem oncloseHandler_retry {code : Nat} {s : SysState} (h1 : code ≠ 1000)
    (h2 : s.reconnectAttempts < maxReconnectAttempts) :
    (oncloseHandler code s).pendingTimers =
      s.pendingTimers ++ [(s.nextTimerId, backoffDelay s.reconnectAttempts)] ∧
    (oncloseHandler code s).reconnectTimeoutRef = some s.nextTimerId ∧
    (oncloseHandler code s).reconnectAttempts = s.reconnectAttempts ∧
    (oncloseHandler code s).conversationStatus = ConversationStatus.idle := by
  unfold oncloseHandler
  dsimp only [onStatusUpdate]
  rw [if_pos (And.intro h1 h2)]
  exact ⟨rfl, rfl, rfl, rfl⟩

theorem oncloseHandler_noRetry {code : Nat} {s : SysState}
    (h : ¬(code ≠ 1000 ∧ s.reconnectAttempts < maxReconnectAttempts)) :
    oncloseHandler code s =
      onStatusUpdate ConversationStatus.idle
        { s with logs := s.logs + 1, isConnected := false } := by
  unfold oncloseHandler
  dsimp only [onStatusUpdate]
  rw [if_neg h]

theorem stepTimerFire_fires {s : SysState} {t : Nat}
    (h : (s.pendingTimers.map Prod.fst).contains t = true) :
    stepTimerFire t s =
      connect
        { s with
          pendingTimers := s.pendingTimers.filter (fun p => p.1 ≠ t)
          reconnectAttempts := s.reconnectAttempts + 1 } := by
  unfold stepTimerFire
  rw [if_pos h]

theorem disconnect_wsRef (s : SysState) : (disconnect s).wsRef = none := by
  unfold disconnect
  cases hr : s.reconnectTimeoutRef <;>
    cases hw : s.wsRef <;>
      simp only [hr, hw] <;>
        first
          | rfl
          | assumption
          | (split <;> first | rfl | assumption | (split <;> first | rfl | assumption))

theorem disconnect_ref (s : SysState) :
    (disconnect s).reconnectTimeoutRef = none := by
  unfold disconnect
  cases hr : s.reconnectTimeoutRef <;>
    cases hw : s.wsRef <;>
      simp only [hr, hw] <;>
        first
          | rfl
          | assumption
          | (split <;> first | rfl | assumption | (split <;> first | rfl | assumption))

theorem disconnect_capture (s : SysState) : (disconnect s).capture = s.capture := by
  unfold disconnect
  cases hr : s.reconnectTimeoutRef <;>
    cases hw : s.wsRef <;>
      simp only [hr, hw] <;>
        first
          | rfl
          | assumption
          | (split <;> first | rfl | assumption | (split <;> first | rfl | assumption))

theorem disconnect_messages (s : SysState) :
    (disconnect s).conversationMessages = s.conversationMessages := by
  unfold disconnect
  cases hr : s.reconnectTimeoutRef <;>
    cases hw : s.wsRef <;>
      simp only [hr, hw] <;>
        first
          | rfl
          | assumption
          | (split <;> first | rfl | assumption | (split <;> first | rfl | assumption))

theorem disconnect_ts (s : SysState) :
    (disconnect s).nextMsgTs = s.nextMsgTs := by
  unfold disconnect
  cases hr : s.reconnectTimeoutRef <;>
    cases hw : s.wsRef <;>
      simp only [hr, hw] <;>
        first
          | rfl
          | assumption
          | (split <;> first | rfl | assumption | (split <;> first | rfl | assumption))

theorem disconnect_status (s : SysState) :
    (disconnect s).conversationStatus = s.conversationStatus := by
  unfold disconnect
  cases hr : s.reconnectTimeoutRef <;>
    cases hw : s.wsRef <;>
      simp only [hr, hw] <;>
        first
          | rfl
          | assumption
          | (split <;> first | rfl | assumption | (split <;> first | rfl | assumption))

theorem disconnect_pending_none {s : SysState}
    (hr : s.reconnectTimeoutRef = none) :
    (disconnect s).pendingTimers = s.pendingTimers := by
  unfold disconnect
  cases hw : s.wsRef <;>
    simp only [hr, hw] <;>
      first
        | rfl
        | assumption
        | (split <;> first | rfl | assumption | (split <;> first | rfl | assumption))

theorem disconnect_pending_some {s : SysState} {t : Nat}
    (hr : s.reconnectTimeoutRef = some t) :
    (disconnect s).pendingTimers = s.pendingTimers.filter (fun p => p.1 ≠ t) := by
  unfold disconnect
  cases hw : s.wsRef <;>
    simp only [hr, hw] <;>
      first
        | rfl
        | assumption
        | (split <;> first | rfl | assumption | (split <;> first | rfl | assumption))

theorem disconnect_conns_live {s : SysState} {cid : Nat} {c : ConnInfo}
    (hw : s.wsRef = some cid) (hc : s.conns cid = some c)
    (hst : ¬(c.state = ReadyState.CLOSING ∨ c.state = ReadyState.CLOSED)) :
    (disconnect s).conns = upd s.conns cid { c with state := ReadyState.CLOSING } := by
  unfold disconnect
  cases hr : s.reconnectTimeoutRef <;>
    simp only [hr, hw, hc, if_neg hst] <;> rfl


theorem onRecommendations_single (tx : String) (s : SysState) :
    onRecommendations [tx] s = { s with
      recommendations := [tx]
      conversationMessages := s.conversationMessages ++ [{ id := mkAgentId s.nextMsgTs 0, type := MsgType.agent, content := tx, timestamp := s.nextMsgTs }]
      nextMsgTs := s.nextMsgTs + 1 } := rfl

theorem onRecommendations_status (recs : List String) (s : SysState) :
    (onRecommendations recs s).conversationStatus = s.conversationStatus := by
  unfold onRecommendations
  dsimp only
  split
  · rfl
  · rfl

theorem forward_none (s : SysState) : forwardTranscription none s = s := rfl

theorem forward_empty {tx : String} (htx : tx = "") (s : SysState) :
    forwardTranscription (some tx) s = s := by
  unfold forwardTranscription
  dsimp only
  rw [if_neg (fun hcond => hcond.1 htx)]

theorem forward_blank {tx : String} (htrim : jsTrim tx = "") (s : SysState) :
    forwardTranscription (some tx) s = s := by
  unfold forwardTranscription
  dsimp only
  rw [if_neg (fun hcond => hcond.2 htrim)]

theorem forward_text {tx : String} (htx : tx ≠ "") (htrim : jsTrim tx ≠ "")
    (s : SysState) :
    forwardTranscription (some tx) s = onRecommendations [tx] s := by
  unfold forwardTranscription
  dsimp only
  rw [if_pos (And.intro htx htrim)]

theorem forwardTranscription_status (t : Option String) (s : SysState) :
    (forwardTranscription t s).conversationStatus = s.conversationStatus := by
  unfold forwardTranscription
  cases t with
  | none => rfl
  | some tx =>
    dsimp only
    by_cases hcond : tx ≠ "" ∧ jsTrim tx ≠ ""
    · rw [if_pos hcond, onRecommendations_status]
    · rw [if_neg hcond]

theorem oncloseHandler_noRetry_fields {code : Nat} {s : SysState}
    (h : ¬(code ≠ 1000 ∧ s.reconnectAttempts < maxReconnectAttempts)) :
    (oncloseHandler code s).pendingTimers = s.pendingTimers ∧
    (oncloseHandler code s).reconnectTimeoutRef = s.reconnectTimeoutRef ∧
    (oncloseHandler code s).reconnectAttempts = s.reconnectAttempts ∧
    (oncloseHandler code s).lastError = s.lastError ∧
    (oncloseHandler code s).conversationStatus = ConversationStatus.idle := by
  unfold oncloseHandler
  dsimp only [onStatusUpdate]
  rw [if_neg h]
  exact ⟨rfl, rfl, rfl, rfl, rfl⟩

theorem stepClose_live_noRetry_fields {s : SysState} {cid code : Nat}
    {c : ConnInfo} (hc : s.conns cid = some c)
    (hst : c.state ≠ ReadyState.CLOSED)
    (hno : ¬(code ≠ 1000 ∧ s.reconnectAttempts < maxReconnectAttempts)) :
    (stepClose cid code s).pendingTimers = s.pendingTimers ∧
    (stepClose cid code s).reconnectTimeoutRef = s.reconnectTimeoutRef ∧
    (stepClose cid code s).reconnectAttempts = s.reconnectAttempts ∧
    (stepClose cid code s).lastError = s.lastError ∧
    (stepClose cid code s).conversationStatus = ConversationStatus.idle := by
  rw [stepClose_live hc hst]
  exact oncloseHandler_noRetry_fields hno

theorem handleStopSession_clean {u : SysState}
    (h1 : u.reconnectTimeoutRef = none) (h2 : u.wsRef = none) :
    handleStopSession u = { u with
      capture := { isRecording := false, audioLevel := 0, captureError := u.capture.captureError, mediaRecorder := false, audioContext := false, analyser := false, stream := false, animationFrame := false }
      isConnected := false
      lastError := none
      reconnectAttempts := 0
      conversationStatus := ConversationStatus.idle
      recommendations := []
      conversationMessages := u.conversationMessages ++ [sessionEndedMsg u.nextMsgTs]
      nextMsgTs := u.nextMsgTs + 1 } := by
  unfold handleStopSession disconnect stopRecording
  simp only [h1, h2]

theorem Inv_disconnect {s : SysState} (h : Inv s) : Inv (disconnect s) := by
  obtain ⟨h1, h2, h3 | ⟨cid, c, hc, h3⟩⟩ := disconnect_view s
  · exact Inv0_of_view h3 h1 (disconnect_wsRef s) (disconnect_flag s) h2
      (inv0_wsRefNone h)
  · exact Inv0_of_view h3 h1 (disconnect_wsRef s) (disconnect_flag s) h2
      (inv0_wsRefNone (inv0_stateChange h hc (by decide) (by decide)))

theorem Inv_timerFire {s : SysState} {t : Nat} (h : Inv s) :
    Inv (stepTimerFire t s) := by
  unfold stepTimerFire
  split
  · exact Inv_connect h
  · exact h

theorem Inv_step {s : SysState} (e : Event) (h : Inv s) : Inv (step e s) := by
  cases e with
  | connect => exact Inv_connect h
  | wsOpen cid => exact Inv_stepOpen h
  | wsMessage d => exact Inv_onmessage h
  | wsError cid => exact Inv_stepError h
  | wsClose cid code => exact Inv_stepClose h
  | timerFire t => exact Inv_timerFire h
  | sendAudio f => exact Inv_sendAudio h
  | disconnect => exact Inv_disconnect h

theorem Inv_initState : Inv initState := by
  refine ⟨?_, ?_, ?_, ?_, ?_, ?_, ?_⟩ <;> intros <;> simp_all [initState, sentOn]

theorem Inv_run (tr : List Event) : Inv (run tr) := by
  suffices h : ∀ s, Inv s → Inv (tr.foldl (fun s e => step e s) s) from
    h initState Inv_initState
  induction tr with
  | nil => exact fun s hs => hs
  | cons e rest ih => exact fun s hs => ih (step e s) (Inv_step e hs)

theorem connect_sent (s : SysState) : (connect s).sent = s.sent := by
  unfold connect createWs
  dsimp only
  split
  · split
    · split
      · rfl
      · rfl
    · rfl
  · rfl

theorem stepOpen_sent (cid : Nat) (s : SysState) :
    (stepOpen cid s).sent = s.sent ∨
    ∃ w, (stepOpen cid s).sent = s.sent ++ [(w, handshakeWire)] := by
  unfold stepOpen
  split
  · split
    · unfold onopenHandler
      dsimp only
      split
      · rename_i w hw
        split
        · split
          · exact Or.inl rfl
          · exact Or.inr ⟨w, rfl⟩
          · exact Or.inl rfl
          · exact Or.inl rfl
        · exact Or.inl rfl
      · exact Or.inl rfl
    · exact Or.inl rfl
  · exact Or.inl rfl

theorem stepError_sent (cid : Nat) (s : SysState) :
    (stepError cid s).sent = s.sent := by
  unfold stepError
  split
  · split
    · rfl
    · rfl
  · rfl

theorem stepClose_sent (cid code : Nat) (s : SysState) :
    (stepClose cid code s).sent = s.sent := by
  unfold stepClose
  dsimp only
  split
  · split
    · rfl
    · exact (oncloseHandler_view code _).2.2.2.2
  · rfl

theorem stepTimerFire_sent (t : Nat) (s : SysState) :
    (stepTimerFire t s).sent = s.sent := by
  unfold stepTimerFire
  split
  · rw [connect_sent]
  · rfl

theorem sendAudio_sent (f : Nat) (s : SysState) :
    (sendAudioData f s).sent = s.sent ∨
    ∃ cid, (sendAudioData f s).sent = s.sent ++ [(cid, WireMsg.binary f)] := by
  unfold sendAudioData
  split
  · rename_i cid hw
    split
    · split
      · exact Or.inr ⟨cid, rfl⟩
      · exact Or.inl rfl
    · exact Or.inl rfl
  · exact Or.inl rfl

theorem countHandshakes_append_handshake (l : List (Nat × WireMsg)) (w : Nat) :
    countHandshakes (l ++ [(w, handshakeWire)]) = countHandshakes l + 1 := by
  unfold countHandshakes
  rw [List.countP_append]
  rfl

theorem countHandshakes_append_binary (l : List (Nat × WireMsg)) (cid f : Nat) :
    countHandshakes (l ++ [(cid, WireMsg.binary f)]) = countHandshakes l := by
  unfold countHandshakes
  rw [List.countP_append]
  rfl

theorem countHandshakes_step (e : Event) (s : SysState) :
    countHandshakes (step e s).sent ≤ countHandshakes s.sent + countOpens [e] := by
  cases e with
  | connect =>
    show countHandshakes (connect s).sent ≤ countHandshakes s.sent + 0
    rw [connect_sent, Nat.add_zero]
  | wsOpen cid =>
    show countHandshakes (stepOpen cid s).sent ≤ countHandshakes s.sent + 1
    rcases stepOpen_sent cid s with h | ⟨w, h⟩
    · rw [h]
      exact Nat.le_succ _
    · rw [h, countHandshakes_append_handshake]
  | wsMessage d =>
    show countHandshakes (onmessageHandler d s).sent ≤ countHandshakes s.sent + 0
    rw [(onmessage_view d s).2.2.2.2, Nat.add_zero]
  | wsError cid =>
    show countHandshakes (stepError cid s).sent ≤ countHandshakes s.sent + 0
    rw [stepError_sent, Nat.add_zero]
  | wsClose cid code =>
    show countHandshakes (stepClose cid code s).sent ≤ countHandshakes s.sent + 0
    rw [stepClose_sent, Nat.add_zero]
  | timerFire t =>
    show countHandshakes (stepTimerFire t s).sent ≤ countHandshakes s.sent + 0
    rw [stepTimerFire_sent, Nat.add_zero]
  | sendAudio f =>
    show countHandshakes (sendAudioData f s).sent ≤ countHandshakes s.sent + 0
    rw [Nat.add_zero]
    rcases sendAudio_sent f s with h | ⟨cid, h⟩
    · rw [h]
    · rw [h, countHandshakes_append_binary]
  | disconnect =>
    show countHandshakes (disconnect s).sent ≤ countHandshakes s.sent + 0
    rw [(disconnect_view s).2.1, Nat.add_zero]

theorem countOpens_cons (e : Event) (tr : List Event) :
    countOpens (e :: tr) = countOpens [e] + countOpens tr := by
  unfold countOpens
  rw [List.countP_cons, List.countP_cons, List.countP_nil]
  omega

theorem countHandshakes_run (tr : List Event) :
    countHandshakes (run tr).sent ≤ countOpens tr := by
  have key : ∀ s, countHandshakes (tr.foldl (fun s e => step e s) s).sent ≤
      countHandshakes s.sent + countOpens tr := by
    induction tr with
    | nil =>
      intro s
      show countHandshakes s.sent ≤ countHandshakes s.sent + 0
      exact Nat.le_refl _
    | cons e rest ih =>
      intro s
      rw [List.foldl_cons, countOpens_cons]
      have h1 := countHandshakes_step e s
      have h2 := ih (step e s)
      omega
  have h := key initState
  have h0 : countHandshakes initState.sent = 0 := rfl
  rw [h0, Nat.zero_add] at h
  exact h

theorem count_sentOn_le (l : List (Nat × WireMsg)) (cid : Nat) :
    (sentOn l cid).count handshakeWire ≤ countHandshakes l := by
  induction l with
  | nil => exact Nat.le_refl 0
  | cons p rest ih =>
    rw [sentOn_cons]
    unfold countHandshakes at ih ⊢
    rw [List.countP_cons]
    by_cases h1 : p.1 = cid
    · rw [if_pos h1, List.count_cons]
      by_cases h2 : p.2 = handshakeWire
      · simp only [h2, beq_self_eq_true, if_true]
        omega
      · have hb : (p.2 == handshakeWire) = false := beq_eq_false_iff_ne.mpr h2
        simp only [hb, if_false]
        omega
    · rw [if_neg h1]
      omega

theorem claim_C1_handshake_gate :
    (∀ tr cid f, (cid, WireMsg.binary f) ∈ (run tr).sent →
      (cid, handshakeWire) ∈ (run tr).sent) ∧
    (∀ s f, s.initialMessageSent = false →
      sendAudioData f s = { s with logs := s.logs + 1 }) ∧
    (∀ s cid c f, s.wsRef = some cid → s.conns cid = some c →
      c.state = ReadyState.OPEN → s.initialMessageSent = true →
      sendAudioData f s = { s with sent := s.sent ++ [(cid, WireMsg.binary f)] }) := by
  refine ⟨?_, ?_, ?_⟩
  · intro tr cid f hmem
    have h := Inv_run tr
    have hb : WireMsg.binary f ∈ sentOn (run tr).sent cid := mem_sentOn.mpr hmem
    rcases h.headHandshake cid with hempty | ⟨rest, hr⟩
    · rw [hempty] at hb
      exact absurd hb (List.not_mem_nil _)
    · refine mem_sentOn.mp ?_
      rw [hr]
      exact List.mem_cons_self _ _
  · intro s f hflag
    exact sendAudio_noflag f hflag
  · intro s cid c f hw hc hop hflag
    exact sendAudio_send f hw hc hop hflag

/-- Witness for C1: on the trace connect, open, send-audio the handshake is
in the transport log; a send in the initial state (handshake not sent) only
logs; a send after connect and open appends the binary frame. -/
theorem claim_C1_handshake_gate_witness :
    ((0, handshakeWire) ∈ (run [Event.connect, Event.wsOpen 0, Event.sendAudio 7]).sent) ∧
    (sendAudioData 5 initState = { initState with logs := initState.logs + 1 }) ∧
    (sendAudioData 9 (run [Event.connect, Event.wsOpen 0]) =
      { run [Event.connect, Event.wsOpen 0] with
        sent := (run [Event.connect, Event.wsOpen 0]).sent ++ [(0, WireMsg.binary 9)] }) :=
  ⟨claim_C1_handshake_gate.1 [Event.connect, Event.wsOpen 0, Event.sendAudio 7] 0 7 (by decide),
   claim_C1_handshake_gate.2.1 initState 5 rfl,
   claim_C1_handshake_gate.2.2 (run [Event.connect, Event.wsOpen 0]) 0
     { state := ReadyState.OPEN, openedOnce := true } 9 (by decide) (by decide) rfl (by decide)⟩

/-- Counterexample to claim C2 (single handshake per connection lifetime):
on the trace connect; connect; open(1); open(0), the second connect orphans
socket 0 while tracking socket 1; socket 1 opens and receives the handshake;
then the orphaned socket 0 opens and its own onopen handler runs, reading
the tracked reference and sending the handshake again on socket 1.  So
connection 1, opened exactly once, carries the handshake twice. -/
theorem claim_C2_single_handshake_counterexample :
    (run [Event.connect, Event.connect, Event.wsOpen 1, Event.wsOpen 0]).conns 1 =
      some { state := ReadyState.OPEN, openedOnce := true } ∧
    (run [Event.connect, Event.connect, Event.wsOpen 1, Event.wsOpen 0]).sent =
      [(1, handshakeWire), (1, handshakeWire)] ∧
    (sentOn (run [Event.connect, Event.connect, Event.wsOpen 1,
      Event.wsOpen 0]).sent 1).count handshakeWire = 2 := by
  decide

/-- Claim C2 amended: the handshake is the first message on every
connection — nothing is sent on a connection before its open event and any
nonempty per-connection log starts with the handshake — but the handshake
is not sent at most once per connection: each delivered open event (of any
socket object, orphaned ones included) sends at most one handshake on the
tracked socket, so a connection can carry up to one handshake per open
event in the trace, and an orphaned socket opening can resend it on the
same tracked connection. -/
theorem claim_C2_single_handshake_amended :
    ∀ tr cid c, (run tr).conns cid = some c →
      (c.openedOnce = false → sentOn (run tr).sent cid = []) ∧
      (sentOn (run tr).sent cid = [] ∨
        ∃ rest, sentOn (run tr).sent cid = handshakeWire :: rest) ∧
      (sentOn (run tr).sent cid).count handshakeWire ≤ countOpens tr := by
  intro tr cid c hc
  have h := Inv_run tr
  exact ⟨fun ho => h.notOpenedNoMsgs cid c hc ho, h.headHandshake cid,
    Nat.le_trans (count_sentOn_le _ _) (countHandshakes_run tr)⟩

/-- Witness for the amended C2: after a bare connect nothing has been sent
on the still-connecting socket 0; after connect, open, send-audio the log of
connection 0 starts with the handshake and its handshake count is bounded by
the single open event of the trace. -/
theorem claim_C2_single_handshake_witness :
    sentOn (run [Event.connect]).sent 0 = [] ∧
    (∃ rest, sentOn (run [Event.connect, Event.wsOpen 0,
        Event.sendAudio 3]).sent 0 = handshakeWire :: rest) ∧
    (sentOn (run [Event.connect, Event.wsOpen 0, Event.sendAudio 3]).sent 0).count
        handshakeWire ≤
      countOpens [Event.connect, Event.wsOpen 0, Event.sendAudio 3] :=
  ⟨(claim_C2_single_handshake_amended [Event.connect] 0
      { state := ReadyState.CONNECTING, openedOnce := false } (by decide)).1 rfl,
   ((claim_C2_single_handshake_amended
      [Event.connect, Event.wsOpen 0, Event.sendAudio 3] 0
      { state := ReadyState.OPEN, openedOnce := true } (by decide)).2.1).resolve_left
      (by decide),
   (claim_C2_single_handshake_amended
      [Event.connect, Event.wsOpen 0, Event.sendAudio 3] 0
      { state := ReadyState.OPEN, openedOnce := true } (by decide)).2.2⟩

/-- Claim C3: backoff schedule.  The delay for attempt k is
min(1000·2^k, 30000), yielding 1000, 2000, 4000, 8000, 16000 ms for
k = 0..4; a close of a live connection with a non-manual code and the
counter below the maximum schedules one timer with exactly that delay
without touching the counter; once the counter has reached the maximum (5)
the close handler schedules nothing; and the counter is incremented exactly
when a pending retry timer fires. -/
theorem claim_C3_backoff :
    (backoffDelay 0 = 1000 ∧ backoffDelay 1 = 2000 ∧ backoffDelay 2 = 4000 ∧
      backoffDelay 3 = 8000 ∧ backoffDelay 4 = 16000) ∧
    (∀ s cid code c, s.conns cid = some c → c.state ≠ ReadyState.CLOSED →
      code ≠ 1000 → s.reconnectAttempts < maxReconnectAttempts →
      (stepClose cid code s).pendingTimers =
        s.pendingTimers ++ [(s.nextTimerId, backoffDelay s.reconnectAttempts)] ∧
      (stepClose cid code s).reconnectAttempts = s.reconnectAttempts) ∧
    (∀ s cid code, maxReconnectAttempts ≤ s.reconnectAttempts →
      (stepClose cid code s).pendingTimers = s.pendingTimers ∧
      (stepClose cid code s).reconnectTimeoutRef = s.reconnectTimeoutRef) ∧
    (∀ s t, (s.pendingTimers.map Prod.fst).contains t = true →
      (stepTimerFire t s).reconnectAttempts = s.reconnectAttempts + 1) := by
  refine ⟨by decide, ?_, ?_, ?_⟩
  · intro s cid code c hc hst h1 h2
    rw [stepClose_live hc hst]
    have hret := oncloseHandler_retry (s := { s with conns := upd s.conns cid { c with state := ReadyState.CLOSED } }) h1 h2
    exact ⟨hret.1, hret.2.2.1⟩
  · intro s cid code hge
    have hno : ¬(code ≠ 1000 ∧ s.reconnectAttempts < maxReconnectAttempts) :=
      fun hcond => absurd hcond.2 (Nat.not_lt.mpr hge)
    cases hcs : s.conns cid with
    | none =>
      unfold stepClose
      rw [hcs]
      exact ⟨rfl, rfl⟩
    | some c =>
      by_cases hst : c.state = ReadyState.CLOSED
      · unfold stepClose
        rw [hcs]
        dsimp only
        rw [if_pos hst]
        exact ⟨rfl, rfl⟩
      · obtain ⟨hp, hrf, _, _, _⟩ := stepClose_live_noRetry_fields hcs hst hno
        exact ⟨hp, hrf⟩
  · intro s t h
    rw [stepTimerFire_fires h, connect_attempts]

/-- Witness for C3: closing the connecting socket of a fresh connect
schedules one timer with delay backoffDelay 0 = 1000 and leaves the counter
unchanged; with the counter at 5 a close schedules nothing; a firing timer
increments the counter. -/
theorem claim_C3_backoff_witness :
    ((stepClose 0 1006 (run [Event.connect])).pendingTimers =
        (run [Event.connect]).pendingTimers ++
          [((run [Event.connect]).nextTimerId,
            backoffDelay (run [Event.connect]).reconnectAttempts)] ∧
      (stepClose 0 1006 (run [Event.connect])).reconnectAttempts =
        (run [Event.connect]).reconnectAttempts) ∧
    ((stepClose 0 1006 { initState with reconnectAttempts := 5 }).pendingTimers =
        ({ initState with reconnectAttempts := 5 } : SysState).pendingTimers ∧
      (stepClose 0 1006 { initState with reconnectAttempts := 5 }).reconnectTimeoutRef =
        ({ initState with reconnectAttempts := 5 } : SysState).reconnectTimeoutRef) ∧
    ((stepTimerFire 3 { initState with pendingTimers := [(3, 1000)] }).reconnectAttempts =
      ({ initState with pendingTimers := [(3, 1000)] } : SysState).reconnectAttempts + 1) :=
  ⟨claim_C3_backoff.2.1 (run [Event.connect]) 0 1006
      { state := ReadyState.CONNECTING, openedOnce := false }
      (by decide) (by decide) (by decide) (by decide),
   claim_C3_backoff.2.2.1 { initState with reconnectAttempts := 5 } 0 1006 (by decide),
   claim_C3_backoff.2.2.2 { initState with pendingTimers := [(3, 1000)] } 3 (by decide)⟩

/-- Trace refuting C4 and exhibiting the leaked reconnect timer: a connect
whose socket closes abnormally (scheduling timer 0), a second connect whose
socket also closes abnormally (scheduling timer 1 and overwriting the stored
reference without cancelling timer 0), a third connect, then a manual
disconnect followed by that socket's close event with code 1000. -/
def trLeakedTimer : List Event :=
  [Event.connect, Event.wsClose 0 1006, Event.connect, Event.wsClose 1 1006,
   Event.connect, Event.disconnect, Event.wsClose 2 1000]

/-- Counterexample to C4: after `disconnect()` and the observed close with
code 1000 the status is idle, the counter is 0 and the error is cleared, but
one reconnect timer (id 0, delay 1000 ms) is still scheduled — not zero as
the claim states. -/
theorem claim_C4_manual_close_counterexample :
    (run trLeakedTimer).conversationStatus = ConversationStatus.idle ∧
    (run trLeakedTimer).reconnectAttempts = 0 ∧
    (run trLeakedTimer).lastError = none ∧
    (run trLeakedTimer).pendingTimers = [(0, 1000)] ∧
    (run trLeakedTimer).pendingTimers ≠ [] := by
  decide

/-- Claim C4 as amended: provided every pending retry timer is the one
currently stored in the reference (no timer leaked by an earlier overwrite),
calling `disconnect()` on a live tracked connection and then observing its
close event with code 1000 leaves zero scheduled reconnect timers, a cleared
timer reference, the attempt counter at zero, no stored error, and status
idle. -/
theorem claim_C4_manual_close_amended :
    ∀ s cid c, (∀ p ∈ s.pendingTimers, s.reconnectTimeoutRef = some p.1) →
      s.wsRef = some cid → s.conns cid = some c →
      (c.state = ReadyState.CONNECTING ∨ c.state = ReadyState.OPEN) →
      (stepClose cid 1000 (disconnect s)).pendingTimers = [] ∧
      (stepClose cid 1000 (disconnect s)).reconnectTimeoutRef = none ∧
      (stepClose cid 1000 (disconnect s)).reconnectAttempts = 0 ∧
      (stepClose cid 1000 (disconnect s)).lastError = none ∧
      (stepClose cid 1000 (disconnect s)).conversationStatus = ConversationStatus.idle := by
  intro s cid c hleak hw hc hlive
  have hnotcl : ¬(c.state = ReadyState.CLOSING ∨ c.state = ReadyState.CLOSED) := by
    rcases hlive with h | h <;> rw [h] <;> decide
  have hdconns : (disconnect s).conns cid = some { c with state := ReadyState.CLOSING } := by
    rw [disconnect_conns_live hw hc hnotcl]
    unfold upd
    rw [if_pos rfl]
  have hdpending : (disconnect s).pendingTimers = [] := by
    cases hr : s.reconnectTimeoutRef with
    | none =>
      rw [disconnect_pending_none hr]
      refine List.eq_nil_iff_forall_not_mem.mpr fun p hp => ?_
      have hx := hleak p hp
      rw [hr] at hx
      exact Option.noConfusion hx
    | some t =>
      rw [disconnect_pending_some hr]
      refine List.filter_eq_nil.mpr fun p hp => ?_
      have hx := hleak p hp
      rw [hr] at hx
      cases hx
      simp
  have hstcl : ({ c with state := ReadyState.CLOSING } : ConnInfo).state ≠
      ReadyState.CLOSED := fun h => ReadyState.noConfusion h
  have hno : ¬((1000 : Nat) ≠ 1000 ∧
      (disconnect s).reconnectAttempts < maxReconnectAttempts) :=
    fun hcond => hcond.1 rfl
  obtain ⟨hp, hrf, hat, herr, hstat⟩ :=
    stepClose_live_noRetry_fields hdconns hstcl hno
  refine ⟨?_, ?_, ?_, ?_, hstat⟩
  · rw [hp, hdpending]
  · rw [hrf, disconnect_ref]
  · rw [hat]
    rfl
  · rw [herr]
    rfl

/-- Witness for C4 as amended: a fresh connect with no pending timers, then
disconnect and the manual close event. -/
theorem claim_C4_manual_close_witness :
    (stepClose 0 1000 (disconnect (run [Event.connect]))).pendingTimers = [] ∧
    (stepClose 0 1000 (disconnect (run [Event.connect]))).reconnectTimeoutRef = none ∧
    (stepClose 0 1000 (disconnect (run [Event.connect]))).reconnectAttempts = 0 ∧
    (stepClose 0 1000 (disconnect (run [Event.connect]))).lastError = none ∧
    (stepClose 0 1000 (disconnect (run [Event.connect]))).conversationStatus =
      ConversationStatus.idle :=
  claim_C4_manual_close_amended (run [Event.connect]) 0
    { state := ReadyState.CONNECTING, openedOnce := false }
    (fun p hp => absurd hp (List.not_mem_nil p))
    (by decide) (by decide) (Or.inl rfl)

/-- Trace refuting C5: two abnormal closes with a re-entrant connect in
between leave two reconnect timers pending at once. -/
def trTwoTimers : List Event :=
  [Event.connect, Event.wsClose 0 1006, Event.connect, Event.wsClose 1 1006]

/-- Counterexample to C5: after the second abnormal close, timers 0 and 1
are both pending (the close handler never cancelled the first), so more than
one reconnect timer is outstanding and only the second is referenced. -/
theorem claim_C5_single_timer_counterexample :
    (run trTwoTimers).pendingTimers = [(0, 1000), (1, 1000)] ∧
    (run trTwoTimers).reconnectTimeoutRef = some 1 ∧
    (run trTwoTimers).pendingTimers.length = 2 := by
  decide

/-- Claim C5 as amended: the close handler schedules a new retry timer by
appending it and overwriting the stored reference, cancelling nothing; and
`disconnect()` cancels exactly the timer currently stored in the reference.
Hence more than one reconnect timer can be pending at a time. -/
theorem claim_C5_single_timer_amended :
    ∀ s cid code c t,
      (s.conns cid = some c → c.state ≠ ReadyState.CLOSED → code ≠ 1000 →
        s.reconnectAttempts < maxReconnectAttempts →
        (stepClose cid code s).pendingTimers =
          s.pendingTimers ++ [(s.nextTimerId, backoffDelay s.reconnectAttempts)] ∧
        (stepClose cid code s).reconnectTimeoutRef = some s.nextTimerId) ∧
      (s.reconnectTimeoutRef = some t →
        (disconnect s).pendingTimers = s.pendingTimers.filter (fun p => p.1 ≠ t) ∧
        (disconnect s).reconnectTimeoutRef = none) := by
  intro s cid code c t
  constructor
  · intro hc hst h1 h2
    rw [stepClose_live hc hst]
    have hret := oncloseHandler_retry (s := { s with conns := upd s.conns cid { c with state := ReadyState.CLOSED } }) h1 h2
    exact ⟨hret.1, hret.2.1⟩
  · intro hr
    exact ⟨disconnect_pending_some hr, disconnect_ref s⟩

/-- Witness for C5 as amended: the first close appends timer 0; disconnect
on the two-timer state removes only the referenced timer 1, leaving timer 0
pending. -/
theorem claim_C5_single_timer_witness :
    ((stepClose 0 1006 (run [Event.connect])).pendingTimers =
        (run [Event.connect]).pendingTimers ++
          [((run [Event.connect]).nextTimerId,
            backoffDelay (run [Event.connect]).reconnectAttempts)] ∧
      (stepClose 0 1006 (run [Event.connect])).reconnectTimeoutRef =
        some (run [Event.connect]).nextTimerId) ∧
    ((disconnect (run trTwoTimers)).pendingTimers =
        (run trTwoTimers).pendingTimers.filter (fun p => p.1 ≠ 1) ∧
      (disconnect (run trTwoTimers)).reconnectTimeoutRef = none) :=
  ⟨(claim_C5_single_timer_amended (run [Event.connect]) 0 1006
      { state := ReadyState.CONNECTING, openedOnce := false } 0).1
      (by decide) (by decide) (by decide) (by decide),
   (claim_C5_single_timer_amended (run trTwoTimers) 0 0
      { state := ReadyState.CONNECTING, openedOnce := false } 1).2 (by decide)⟩

/-- Counterexample to C6: calling `connect()` while the previous connect is
still in flight (socket 0 still CONNECTING) creates a second WebSocket
object — after connect, connect there are two live connection objects (ids 0
and 1, both CONNECTING) and the reference tracks the second. -/
theorem claim_C6_reentrant_connect_counterexample :
    (run [Event.connect, Event.connect]).conns 0 =
      some { state := ReadyState.CONNECTING, openedOnce := false } ∧
    (run [Event.connect, Event.connect]).conns 1 =
      some { state := ReadyState.CONNECTING, openedOnce := false } ∧
    (run [Event.connect, Event.connect]).nextConnId = 2 ∧
    (run [Event.connect, Event.connect]).wsRef = some 1 := by
  decide

/-- Claim C6 as amended: `connect()` is a no-op (only clearing the stored
error) exactly when the tracked connection is already OPEN; called while the
tracked connection is still CONNECTING (a connect in flight), it creates a
second connection object. -/
theorem claim_C6_reentrant_connect_amended :
    ∀ s cid c,
      (s.wsRef = some cid → s.conns cid = some c →
        c.state = ReadyState.OPEN →
        connect s = { s with lastError := none }) ∧
      (s.wsRef = some cid → s.conns cid = some c →
        c.state = ReadyState.CONNECTING →
        connect s = createWs { s with lastError := none }) :=
  fun _ _ _ =>
    ⟨fun hw hc hop => connect_noop hw hc hop,
     fun hw hc hcon => connect_inflight hw hc hcon⟩

/-- Witness for C6 as amended: after connect and open the next connect is a
pure error-clear; after a single connect (still CONNECTING) the next connect
allocates a new socket. -/
theorem claim_C6_reentrant_connect_witness :
    (connect (run [Event.connect, Event.wsOpen 0]) =
      { run [Event.connect, Event.wsOpen 0] with lastError := none }) ∧
    (connect (run [Event.connect]) =
      createWs { run [Event.connect] with lastError := none }) :=
  ⟨(claim_C6_reentrant_connect_amended (run [Event.connect, Event.wsOpen 0]) 0
      { state := ReadyState.OPEN, openedOnce := true }).1 (by decide) (by decide) rfl,
   (claim_C6_reentrant_connect_amended (run [Event.connect]) 0
      { state := ReadyState.CONNECTING, openedOnce := false }).2 (by decide) (by decide) rfl⟩

/-- Claim C7: malformed payload safety.  For a text payload that fails to
parse as JSON, the handler body throws (JSON.parse raises), the installed
try/catch absorbs it, and the observable effect is exactly one logged
diagnostic: the status, the recommendations, the conversation log, the
transport log and every other component are unchanged, and the handler never
propagates the exception. -/
theorem claim_C7_malformed_payload :
    ∀ s, onmessageHandler (InMsg.text none) s = { s with logs := s.logs + 1 } ∧
      onmessageBody (InMsg.text none) s = Except.error wsErrorText :=
  fun _ => ⟨rfl, rfl⟩

/-- Claim C8: pause/text decoupling.  A decoded message carrying the
is_there_a_pause key sets the status to paused when the flag is set and to
listening otherwise; in both cases, when the transcription is present and
non-blank exactly one agent message with that exact text is appended to the
conversation log, and when it is absent, empty, or blank after trimming,
zero messages are appended. -/
theorem claim_C8_pause_text :
    ∀ s b t,
      ((onmessageHandler (InMsg.text (some (JsonShape.withPause b t))) s).conversationStatus =
        (if b then ConversationStatus.paused else ConversationStatus.listening)) ∧
      (t = none →
        (onmessageHandler (InMsg.text (some (JsonShape.withPause b t))) s).conversationMessages =
          s.conversationMessages) ∧
      (∀ tx, t = some tx → tx = "" ∨ jsTrim tx = "" →
        (onmessageHandler (InMsg.text (some (JsonShape.withPause b t))) s).conversationMessages =
          s.conversationMessages) ∧
      (∀ tx, t = some tx → tx ≠ "" → jsTrim tx ≠ "" →
        (onmessageHandler (InMsg.text (some (JsonShape.withPause b t))) s).conversationMessages =
          s.conversationMessages ++
            [{ id := mkAgentId s.nextMsgTs 0, type := MsgType.agent, content := tx, timestamp := s.nextMsgTs }]) := by
  intro s b t
  have hred : onmessageHandler (InMsg.text (some (JsonShape.withPause b t))) s =
      forwardTranscription t
        (onStatusUpdate
          (if b then ConversationStatus.paused else ConversationStatus.listening) s) := by
    cases b <;> rfl
  rw [hred]
  refine ⟨?_, ?_, ?_, ?_⟩
  · rw [forwardTranscription_status]
    rfl
  · intro he
    subst he
    rfl
  · intro tx he hblank
    subst he
    rcases hblank with he2 | htrim
    · rw [forward_empty he2]
      rfl
    · rw [forward_blank htrim]
      rfl
  · intro tx he htx htrim
    subst he
    rw [forward_text htx htrim, onRecommendations_single]
    rfl

/-- Witness for C8: a non-pause message with non-blank text sets status
listening and appends one agent message with that text; a pause message with
a blank transcription appends nothing and sets status paused. -/
theorem claim_C8_pause_text_witness :
    ((onmessageHandler (InMsg.text (some (JsonShape.withPause false (some "go on")))) initState).conversationStatus =
      ConversationStatus.listening) ∧
    ((onmessageHandler (InMsg.text (some (JsonShape.withPause false (some "go on")))) initState).conversationMessages =
      initState.conversationMessages ++
        [{ id := mkAgentId initState.nextMsgTs 0, type := MsgType.agent, content := "go on", timestamp := initState.nextMsgTs }]) ∧
    ((onmessageHandler (InMsg.text (some (JsonShape.withPause true (some "  ")))) initState).conversationStatus =
      ConversationStatus.paused) ∧
    ((onmessageHandler (InMsg.text (some (JsonShape.withPause true (some "  ")))) initState).conversationMessages =
      initState.conversationMessages) :=
  ⟨(claim_C8_pause_text initState false (some "go on")).1,
   (claim_C8_pause_text initState false (some "go on")).2.2.2 "go on" rfl
     (by decide) (by decide),
   (claim_C8_pause_text initState true (some "  ")).1,
   (claim_C8_pause_text initState true (some "  ")).2.2.1 "  " rfl
     (Or.inr (by decide))⟩

/-- Counterexample to C9: calling handleStopSession twice from the initial
state is not idempotent — the second call appends a second system "Session
ended" message, so the conversation log differs between one call and two. -/
theorem claim_C9_stop_idempotent_counterexample :
    (handleStopSession (handleStopSession initState)).conversationMessages ≠
      (handleStopSession initState).conversationMessages ∧
    (handleStopSession initState).conversationMessages.length = 1 ∧
    (handleStopSession (handleStopSession initState)).conversationMessages.length = 2 := by
  decide

/-- Claim C9 as amended: a second handleStopSession call is idempotent on
capture, connection, status, recommendations and every other component,
except that it appends one more system "Session ended" message to the
conversation log (and advances the message clock). -/
theorem claim_C9_stop_idempotent_amended :
    ∀ s, handleStopSession (handleStopSession s) =
      { handleStopSession s with
        conversationMessages := (handleStopSession s).conversationMessages ++
          [sessionEndedMsg (handleStopSession s).nextMsgTs]
        nextMsgTs := (handleStopSession s).nextMsgTs + 1 } := by
  intro s
  have h1 : (handleStopSession s).reconnectTimeoutRef = none :=
    disconnect_ref (stopRecording s)
  have h2 : (handleStopSession s).wsRef = none :=
    disconnect_wsRef (stopRecording s)
  rw [handleStopSession_clean h1 h2]
  have hcap : (handleStopSession s).capture =
      { isRecording := false, audioLevel := 0, captureError := s.capture.captureError, mediaRecorder := false, audioContext := false, analyser := false, stream := false, animationFrame := false } :=
    disconnect_capture (stopRecording s)
  apply SysState.ext <;> try rfl
  rw [hcap]

/-- Claim C10: every `connect()` call stores `null` into the error field as
its first action — including on the no-op path where the tracked connection
is already OPEN, where the call changes nothing except erasing any
previously stored error. -/
theorem claim_C10_connect_clears_error :
    ∀ s, ((connect s).lastError = none) ∧
      (∀ cid c, s.wsRef = some cid → s.conns cid = some c →
        c.state = ReadyState.OPEN → connect s = { s with lastError := none }) :=
  fun s => ⟨connect_lastError s, fun _ _ hw hc hop => connect_noop hw hc hop⟩

/-- Witness for C10: on a state with a stored transport error and an open
connection, connect() changes exactly the stored error to none. -/
theorem claim_C10_connect_clears_error_witness :
    (run [Event.connect, Event.wsOpen 0, Event.wsError 0]).lastError = some wsErrorText ∧
    connect (run [Event.connect, Event.wsOpen 0, Event.wsError 0]) =
      { run [Event.connect, Event.wsOpen 0, Event.wsError 0] with lastError := none } :=
  ⟨by decide,
   (claim_C10_connect_clears_error (run [Event.connect, Event.wsOpen 0, Event.wsError 0])).2
     0 { state := ReadyState.OPEN, openedOnce := true } (by decide) (by decide) rfl⟩

end AudioStream
